import Mathlib

/-!
Verification development for the conversational analytics client
(Angular frontend).  The embedding below translates the client-side
session and rendering pipeline:

* `ChartsComponent` (charts.component.ts): the label/series derivation in
  `renderChart` (`chartData` below), the color helpers `generateColors` and
  `getColor`, and the destroy-before-draw registry discipline (`renderChart`
  below, acting on an explicit chart registry).
* `ChatComponent` (chat.component.ts): `sendMessage` (split into the
  synchronous `submitPhase` and the response callback `responsePhase`),
  `clearChat`.
* `AppComponent.refreshSessions` (app.component.ts).
* `HistoryService`: its source file is not part of the corpus; its
  operations are modelled from the specification (section 4.1), as marked
  on each definition.

JavaScript value conventions: record field values are modelled by `JSVal`
(string, integer number, or `undef` for an absent field); JS truthiness and
the `||` operator are modelled by `JSVal.truthy` and `jsOr`.  Numbers are
modelled exactly (integers / rationals); instants are `Nat` ticks, with the
ISO serialization of an instant modelled by `toString`.  JS `substring`
counts UTF-16 units and `String.take` counts characters; the two agree on
the basic-plane text relevant here.
-/

/-- JavaScript values stored in loosely-typed records: a string, a number,
or `undef` for an absent field. -/
inductive JSVal where
  | undef
  | s (v : String)
  | n (v : Int)
deriving DecidableEq

/-- JS truthiness: `undefined`, the empty string and `0` are falsy. -/
def JSVal.truthy : JSVal → Bool
  | .undef => false
  | .s v => v ≠ ""
  | .n v => v ≠ 0

/-- The JS `||` operator on record values: the left operand when truthy,
otherwise the right operand. -/
def jsOr (a b : JSVal) : JSVal := if a.truthy then a else b

/-- A loosely-typed record (JS object): field names paired with values. -/
def Record := List (String × JSVal)

instance : DecidableEq Record := by
  unfold Record
  infer_instance

/-- Field access `d.k` on a record: the stored value, `undef` if absent. -/
def getField (d : Record) (k : String) : JSVal :=
  match d.find? (fun p => p.1 == k) with
  | some p => p.2
  | none => JSVal.undef

/-- Keys of a record in insertion order (`Object.keys`). -/
def recordKeys (d : Record) : List String := d.map Prod.fst

/-- Order-preserving deduplication keeping first occurrences, as
`Array.from(new Set(xs))` produces. -/
def dedupAux {α : Type} [DecidableEq α] : List α → List α → List α
  | [], _ => []
  | x :: xs, seen => if x ∈ seen then dedupAux xs seen else x :: dedupAux xs (x :: seen)

/-- Entry point of the order-preserving deduplication. -/
def dedupFirst {α : Type} [DecidableEq α] (l : List α) : List α := dedupAux l []

/-- A concrete color: `rgba(r, g, b, a)` or `hsla(h, s%, l%, a)`, the two
CSS color forms the component emits (string formatting abstracted). -/
inductive Color where
  | rgba (r g b : Nat) (a : Rat)
  | hsla (h : Rat) (s l : Nat) (a : Rat)
deriving DecidableEq

/-- The fixed 8-color palette of `generateColors` (charts.component.ts,
lines 133-142), at a given alpha. -/
def palette8 (alpha : Rat) : List Color :=
  [ .rgba 76 175 80 alpha
  , .rgba 33 150 243 alpha
  , .rgba 255 193 7 alpha
  , .rgba 244 67 54 alpha
  , .rgba 156 39 176 alpha
  , .rgba 0 188 212 alpha
  , .rgba 255 152 0 alpha
  , .rgba 121 85 72 alpha ]

/-- The fixed 6-color palette of `getColor` (charts.component.ts,
lines 161-168), at a given alpha. -/
def palette6 (alpha : Rat) : List Color :=
  [ .rgba 76 175 80 alpha
  , .rgba 33 150 243 alpha
  , .rgba 255 193 7 alpha
  , .rgba 244 67 54 alpha
  , .rgba 156 39 176 alpha
  , .rgba 0 188 212 alpha ]

/-- JS `%` on non-negative numbers: `x - y * floor (x / y)`. -/
def ratMod (x y : Rat) : Rat := x - y * (⌊x / y⌋ : Int)

/-- The golden-angle literal `137.508` of the source, as an exact rational. -/
def goldenAngle : Rat := 137508 / 1000

/-- ChartsComponent.generateColors (charts.component.ts, lines 132-154):
the fixed 8-color palette, extended by hue-rotated `hsla` colors for counts
beyond 8, truncated to `count` entries. -/
def generateColors (count : Nat) (alpha : Rat) : List Color :=
  let colors := palette8 alpha
  if count > colors.length then
    let additionalColors :=
      ((List.range count).drop colors.length).map
        (fun (i : Nat) => Color.hsla (ratMod ((i : Rat) * goldenAngle) 360) 70 65 alpha)
    (colors ++ additionalColors).take count
  else
    colors.take count

/-- ChartsComponent.getColor (charts.component.ts, lines 160-170): entry
`index % 6` of the fixed 6-color palette. -/
def getColor (index : Nat) (alpha : Rat) : Color :=
  (palette6 alpha).getD (index % (palette6 alpha).length) (Color.rgba 0 0 0 1)

/-- ChartsComponent.formatLabel (charts.component.ts, line 157):
`key.replace(/([A-Z])/g, ' $1').replace(/^./, toUpperCase)`. -/
def formatLabel (key : String) : String :=
  let spaced := key.data.foldr
    (fun ch acc => if ch.isUpper then ' ' :: ch :: acc else ch :: acc) []
  match spaced with
  | [] => ""
  | c :: rest => String.mk (c.toUpper :: rest)

/-- The four chart kinds the component accepts. -/
inductive ChartType where
  | line
  | bar
  | pie
  | doughnut
deriving DecidableEq

/-- A Chart.js dataset as the component builds it: optional series label,
positional values, and colors (options irrelevant to the embedding, such
as tension, are omitted). -/
structure Dataset where
  label : Option String := none
  data : List JSVal
  backgroundColor : List Color := []
  borderColor : List Color := []
  fill : Bool := false
  borderWidth : Nat := 2
deriving DecidableEq

/-- Per-record pie/doughnut label:
`d.status || d.type || d.name || d.label || 'Unknown'`
(charts.component.ts, line 69). -/
def pieLabel (d : Record) : JSVal :=
  jsOr (jsOr (jsOr (jsOr (getField d "status") (getField d "type"))
    (getField d "name")) (getField d "label")) (.s "Unknown")

/-- Per-record pie/doughnut value:
`d.count || d.value || d.percentage || 0` (charts.component.ts, line 71). -/
def pieValue (d : Record) : JSVal :=
  jsOr (jsOr (jsOr (getField d "count") (getField d "value"))
    (getField d "percentage")) (.n 0)

/-- Per-record series label source: `d.month || d.date || d.period || ''`
(charts.component.ts, line 77). -/
def seriesLabelOf (d : Record) : JSVal :=
  jsOr (jsOr (jsOr (getField d "month") (getField d "date"))
    (getField d "period")) (.s "")

/-- Field keys of the first record that become series
(charts.component.ts, lines 79-81): every key of `data[0]` other than
`month`, `date`, `period`, `label`. -/
def seriesKeys (data : List Record) : List String :=
  (recordKeys (data.headD [])).filter
    (fun k => k != "month" && k != "date" && k != "period" && k != "label")

/-- The label/series derivation of ChartsComponent.renderChart
(charts.component.ts, lines 64-92): categorical kinds map each record to
one label and one value in a single dataset; series kinds deduplicate the
label field and build one dataset per remaining key of the first record,
with values pulled positionally (`d[key] || 0`). -/
def chartData (ty : ChartType) (data : List Record) : List JSVal × List Dataset :=
  if ty = .pie ∨ ty = .doughnut then
    let labels := data.map pieLabel
    (labels,
      [{ data := data.map pieValue
       , backgroundColor := generateColors labels.length (7/10)
       , borderColor := generateColors labels.length 1
       , borderWidth := 2 }])
  else
    let labels := (dedupFirst (data.map seriesLabelOf)).filter JSVal.truthy
    (labels,
      (seriesKeys data).enum.map (fun p =>
        { label := some (formatLabel p.2)
        , data := data.map (fun d => jsOr (getField d p.2) (.n 0))
        , borderColor := [getColor p.1 1]
        , backgroundColor := [if ty = .bar then getColor p.1 (7/10) else getColor p.1 (1/10)]
        , fill := ty = .line
        , borderWidth := 2 }))

/-! Chart registry model.  Chart.js keeps a global registry of live charts,
each bound to a canvas; `Chart.getChart(canvas)` looks a live chart up by
canvas and `destroy()` removes a chart from the registry.  Live charts are
identified by numeric handles (`uid`); `nextUid` supplies fresh handles. -/

/-- The charting engine's registry of live charts: handle paired with the
canvas id it is bound to, plus a fresh-handle counter. -/
structure ChartRegistry where
  charts : List (Nat × String)
  nextUid : Nat
deriving DecidableEq

/-- Chart.getChart(canvas): some live chart bound to this canvas, if any. -/
def registryLookup (g : ChartRegistry) (canvas : String) : Option Nat :=
  (g.charts.find? (fun p => p.2 == canvas)).map Prod.fst

/-- chart.destroy(): remove a live chart from the registry. -/
def destroyChart (g : ChartRegistry) (uid : Nat) : ChartRegistry :=
  { g with charts := g.charts.filter (fun p => p.1 != uid) }

/-- Destroy the chart the component itself tracks, when it tracks one
(charts.component.ts, lines 53-56). -/
def destroyTracked (inst : Option Nat) (g : ChartRegistry) : ChartRegistry :=
  match inst with
  | some uid => destroyChart g uid
  | none => g

/-- Destroy whatever chart the engine's registry holds for the canvas
(charts.component.ts, lines 59-62). -/
def destroyRegistered (g : ChartRegistry) (canvas : String) : ChartRegistry :=
  match registryLookup g canvas with
  | some uid => destroyChart g uid
  | none => g

/-- The component state renderChart reads: its own tracked handle
(`chartInstance`) and the inputs naming the target surface. -/
structure ChartsComponentState where
  chartInstance : Option Nat := none
  chartId : String := ""
  title : String := ""
deriving DecidableEq

/-- ChartsComponent.renderChart (charts.component.ts, lines 42-99),
registry aspect: resolve the canvas (`chartId || title`, suffixed
`_chart`); return untouched when the canvas is absent from the DOM
(modelled by the `dom` list); otherwise destroy the component's own
tracked chart, destroy any chart the registry holds for the canvas, and
bind a fresh chart to the canvas.  The label/series derivation this
function also performs is `chartData` above. -/
def renderChart (c : ChartsComponentState) (g : ChartRegistry) (dom : List String) :
    ChartsComponentState × ChartRegistry :=
  let cid := if c.chartId = "" then c.title else c.chartId
  let canvas := cid ++ "_chart"
  if canvas ∈ dom then
    let g2 := destroyRegistered (destroyTracked c.chartInstance g) canvas
    let uid := g2.nextUid
    ({ c with chartInstance := some uid },
     { charts := g2.charts ++ [(uid, canvas)], nextUid := uid + 1 })
  else
    (c, g)

/-- Number of live charts bound to a canvas. -/
def liveOn (g : ChartRegistry) (canvas : String) : Nat :=
  (g.charts.filter (fun p => p.2 == canvas)).length

/-- Registry invariant: at most one live chart per canvas. -/
def RegOk (g : ChartRegistry) : Prop := ∀ canvas, liveOn g canvas ≤ 1

/-- A sequence of renderChart calls, each against the DOM contents of its
moment. -/
def runRenders (c : ChartsComponentState) (g : ChartRegistry) :
    List (List String) → ChartsComponentState × ChartRegistry
  | [] => (c, g)
  | dom :: rest =>
      let r := renderChart c g dom
      runRenders r.1 r.2 rest

/-! Chat component model (chat.component.ts) and the history store it
persists into. -/

/-- JS `String.prototype.trim`: strip leading and trailing whitespace
(written out over the character list so that it evaluates in the kernel). -/
def trimString (s : String) : String :=
  String.mk (((s.data.dropWhile Char.isWhitespace).reverse.dropWhile Char.isWhitespace).reverse)

/-- Message author. -/
inductive Role where
  | user
  | assistant
deriving DecidableEq

/-- The audio payload a response message may carry. -/
structure AudioPayload where
  success : Bool
  audio_base64 : Option String := none
deriving DecidableEq

/-- A loosely-typed visualization payload: named KPI numbers and named
chart record arrays, the shape both the backend responses and the local
fallback use. -/
structure VizData where
  kpis : List (String × JSVal) := []
  charts : List (String × List Record) := []
deriving DecidableEq

/-- An in-memory chat message (models/interfaces ChatMessage): role,
content, timestamp, and the optional response payloads. -/
structure ChatMessage where
  role : Role
  content : String
  timestamp : Nat
  visualizations : Option VizData := none
  recommendations : Option (List String) := none
  audio : Option AudioPayload := none
deriving DecidableEq

/-- A persisted message record (history.service ChatMessageRecord): same
data with the timestamp serialized to a string. -/
structure ChatMessageRecord where
  role : Role
  content : String
  timestamp : String
  visualizations : Option VizData := none
  recommendations : Option (List String) := none
  audio : Option AudioPayload := none
deriving DecidableEq

/-- A persisted session (history.service ChatSession). -/
structure ChatSession where
  id : String
  title : String
  createdAt : Nat
  updatedAt : Nat
  language : String
  messages : List ChatMessageRecord
deriving DecidableEq

/-- The history store's persisted state: the session collection (head =
most recently created) plus a counter abstracting the random unique id
generator (the spec only requires ids unique within the store). -/
structure HistoryStore where
  sessions : List ChatSession
  nextId : Nat
deriving DecidableEq

/-- Modelled from the spec: HistoryService.create (history.service.ts is
not in the corpus; spec section 4.1 / 8): generate a fresh id and
timestamps, title defaulting to "New chat" on blank input, insert at the
head of the collection, return the new session. -/
def HistoryStore.create (st : HistoryStore) (title language : String) (t : Nat) :
    ChatSession × HistoryStore :=
  let s : ChatSession :=
    { id := "session-" ++ toString st.nextId
    , title := if trimString title = "" then "New chat" else title
    , createdAt := t
    , updatedAt := t
    , language := language
    , messages := [] }
  (s, { sessions := s :: st.sessions, nextId := st.nextId + 1 })

/-- Modelled from the spec: HistoryService.appendMessage (spec section
4.1): append to the named session and bump `updatedAt`; unknown ids are
silently ignored. -/
def HistoryStore.appendMessage (st : HistoryStore) (sid : String)
    (m : ChatMessageRecord) (t : Nat) : HistoryStore :=
  { st with sessions := st.sessions.map (fun s =>
      if s.id = sid then { s with messages := s.messages ++ [m], updatedAt := t } else s) }

/-- Modelled from the spec: HistoryService.rename (spec section 4.1):
trim the new title; keep the old title when the trimmed one is blank; bump
`updatedAt` either way. -/
def HistoryStore.rename (st : HistoryStore) (sid newTitle : String) (t : Nat) :
    HistoryStore :=
  { st with sessions := st.sessions.map (fun s =>
      if s.id = sid then
        { s with title := if trimString newTitle = "" then s.title else trimString newTitle
               , updatedAt := t }
      else s) }

/-- Modelled from the spec: HistoryService.load (spec section 4.1). -/
def HistoryStore.load (st : HistoryStore) (sid : String) : Option ChatSession :=
  st.sessions.find? (fun s => s.id == sid)

/-- The chat component's mutable fields relevant to the message pipeline
(chat.component.ts, lines 13-22). -/
structure ChatState where
  messages : List ChatMessage
  userInput : String
  isLoading : Bool
  includeAudio : Bool
  language : String
  currentSession : Option ChatSession := none
deriving DecidableEq

/-- The body of a structurally valid query response
(api.service sendQuery contract). -/
structure QueryResponseBody where
  answer : String
  visualizations : Option VizData := none
  recommendations : Option (List String) := none
  audio : Option AudioPayload := none
deriving DecidableEq

/-- Outcome of the subscribed query call: the `next` callback with the
response's `success` flag and body, or the `error` callback (transport
failure). -/
inductive QueryOutcome where
  | next (success : Bool) (response : QueryResponseBody)
  | error
deriving DecidableEq

/-- Observable calls sendMessage makes on its collaborators: the query
handed to the api service, the rename handed to the history service, and
the payload handed to the audio service. -/
structure SendTrace where
  querySent : Option (String × String × Bool) := none
  renamed : Option (String × String) := none
  audioPlayed : Option String := none
deriving DecidableEq

/-- The placeholder visualization payload of the transport-failure
fallback (chat.component.ts, lines 145-164). -/
def fallbackVisualizations : VizData :=
  { kpis :=
      [ ("total_incidents", .n 5)
      , ("critical_alerts", .n 2)
      , ("avg_efficiency", .n 87)
      , ("monthly_production", .n 12500) ]
  , charts :=
      [ ("equipment_status",
          [ [("status", .s "Operational"), ("count", .n 45)]
          , [("status", .s "Maintenance"), ("count", .n 8)]
          , [("status", .s "Critical"), ("count", .n 2)] ])
      , ("production_trend",
          [ [("month", .s "Jan"), ("production", .n 12000)]
          , [("month", .s "Feb"), ("production", .n 13500)]
          , [("month", .s "Mar"), ("production", .n 12800)] ]) ] }

/-- The locally synthesized fallback assistant message pushed on a
transport failure (chat.component.ts, lines 141-170). -/
def fallbackMessage (query : String) (t : Nat) : ChatMessage :=
  { role := .assistant
  , content := "I analyzed your query about \"" ++ query ++
      "\". Here are the current mining operations insights:"
  , timestamp := t
  , visualizations := some fallbackVisualizations
  , recommendations := some
      [ "Schedule maintenance for equipment with >5000 operating hours"
      , "Review safety protocols for incident-prone areas"
      , "Optimize shift schedules to improve efficiency" ] }

/-- The synchronous part of ChatComponent.sendMessage (chat.component.ts,
lines 67-97): guard against blank input or an in-flight request; push the
user message; lazily create the session; persist the user message;
auto-rename on the second in-memory message; clear the input, raise the
loading flag, and send the query. -/
def submitPhase (c : ChatState) (st : HistoryStore) (t : Nat) :
    ChatState × HistoryStore × SendTrace :=
  if trimString c.userInput = "" ∨ c.isLoading = true then (c, st, {}) else
  let userMessage : ChatMessage := { role := .user, content := c.userInput, timestamp := t }
  let messages1 := c.messages ++ [userMessage]
  let p := match c.currentSession with
    | none => HistoryStore.create st c.userInput c.language t
    | some s => (s, st)
  let sess := p.1
  let st2 := p.2.appendMessage sess.id
    { role := .user, content := userMessage.content, timestamp := toString t } t
  let q := if messages1.length = 2 then
      (st2.rename sess.id (userMessage.content.take 30) t,
       some (sess.id, userMessage.content.take 30))
    else (st2, none)
  ({ c with messages := messages1, userInput := "", isLoading := true,
            currentSession := some sess },
   q.1,
   { querySent := some (c.userInput, c.language, c.includeAudio), renamed := q.2 })

/-- The subscribe callbacks of ChatComponent.sendMessage
(chat.component.ts, lines 98-175): on a successful response integrate and
persist the assistant message and possibly play audio; on a reported
failure push the fixed apology; on a transport error push the synthesized
fallback message.  Returns the new state, the new store, and the audio
payload played, if any. -/
def responsePhase (c : ChatState) (st : HistoryStore) (query : String)
    (out : QueryOutcome) (t : Nat) : ChatState × HistoryStore × Option String :=
  match out with
  | .next true resp =>
      let assistantMessage : ChatMessage :=
        { role := .assistant
        , content := resp.answer
        , timestamp := t
        , visualizations := resp.visualizations
        , recommendations := resp.recommendations
        , audio := resp.audio }
      let st1 := match c.currentSession with
        | some sess => st.appendMessage sess.id
            { role := .assistant
            , content := assistantMessage.content
            , timestamp := toString t
            , visualizations := assistantMessage.visualizations
            , recommendations := assistantMessage.recommendations
            , audio := assistantMessage.audio } t
        | none => st
      let played := if c.includeAudio &&
          (match resp.audio with | some a => a.success | none => false)
        then resp.audio.bind (fun a => a.audio_base64) else none
      ({ c with isLoading := false, messages := c.messages ++ [assistantMessage] },
       st1, played)
  | .next false _ =>
      ({ c with isLoading := false
              , messages := c.messages ++
                  [{ role := .assistant
                   , content := "Sorry, I encountered an error. Please try again."
                   , timestamp := t }] },
       st, none)
  | .error =>
      ({ c with isLoading := false
              , messages := c.messages ++ [fallbackMessage query t] },
       st, none)

/-- ChatComponent.sendMessage end to end: the synchronous submit phase at
instant `t`, then — when a query was actually sent — the response callback
at instant `tResp` with outcome `out`. -/
def sendMessage (c : ChatState) (st : HistoryStore) (out : QueryOutcome)
    (t tResp : Nat) : ChatState × HistoryStore × SendTrace :=
  let r := submitPhase c st t
  match r.2.2.querySent with
  | none => r
  | some q =>
      let r2 := responsePhase r.1 r.2.1 q.1 out tResp
      (r2.1, r2.2.1, { r.2.2 with audioPlayed := r2.2.2 })

/-- ChatComponent.clearChat (chat.component.ts, lines 221-227): reset the
in-memory list to the single cleared-greeting; every other field is left
alone. -/
def clearChat (c : ChatState) (t : Nat) : ChatState :=
  { c with messages :=
      [{ role := .assistant
       , content := "Chat cleared. How can I help you with mining operations today?"
       , timestamp := t }] }

/-- AppComponent.refreshSessions (app.component.ts, lines 106-113): read
the session blob from local storage (`none` when the key is absent); an
absent or empty blob yields `[]`; a parse failure is caught and yields
`[]`; a well-formed blob yields its parsed content.  `parseJson` stands
for `JSON.parse` at the session-list shape. -/
def refreshSessions (parseJson : String → Except String (List ChatSession))
    (raw : Option String) : List ChatSession :=
  match raw with
  | none => []
  | some s =>
      if s = "" then []
      else
        match parseJson s with
        | .ok sessions => sessions
        | .error _ => []

/-! Spec-side definitions used to state the claims about field selection.
These two follow the claim wording, not the source, and exist to be
compared with the source-derived `jsOr` chains. -/

/-- Claim wording: the value of the first of `keys` that is PRESENT on the
record (regardless of truthiness). -/
def firstPresent (d : Record) : List String → Option JSVal
  | [] => none
  | k :: ks =>
      match d.find? (fun p => p.1 == k) with
      | some p => some p.2
      | none => firstPresent d ks

/-- Amended wording: the value of the first of `keys` whose value on the
record is truthy. -/
def firstTruthy (d : Record) : List String → Option JSVal
  | [] => none
  | k :: ks =>
      if (getField d k).truthy then some (getField d k) else firstTruthy d ks

/-- The id of the session a submit targets: the current session's id, or
the id the store would assign to the lazily created one. -/
def currentOrNewId (c : ChatState) (st : HistoryStore) : String :=
  match c.currentSession with
  | some s => s.id
  | none => "session-" ++ toString st.nextId

/-! Concrete fixtures used by the witness theorems. -/

/-- A chat state right after `ngOnInit` with a query typed: the greeting
message in the list, no session yet, not loading. -/
def demoState : ChatState :=
  { messages := [{ role := .assistant, content := "hello", timestamp := 0 }]
  , userInput := "show equipment status"
  , isLoading := false
  , includeAudio := true
  , language := "en" }

/-- The empty history store. -/
def emptyStore : HistoryStore := { sessions := [], nextId := 0 }

/-- A store holding one session with one persisted message. -/
def demoSession : ChatSession :=
  { id := "session-7", title := "old title", createdAt := 3, updatedAt := 4
  , language := "en"
  , messages := [{ role := .user, content := "earlier", timestamp := "3" }] }

/-- A one-session store built around `demoSession`. -/
def demoStore : HistoryStore := { sessions := [demoSession], nextId := 8 }

/-- A concrete stand-in for `JSON.parse` at the session-list shape. -/
def demoParse (s : String) : Except String (List ChatSession) :=
  if s = "[]" then .ok [] else .error "SyntaxError"

/-! # Theorems -/

/-- C2: for every controller state, calling submit with blank or
whitespace-only input, or while a request is in flight, is a no-op: the
message list, session pointer, loading flag and input text are unchanged
(the whole state and store are returned as they were) and no query is sent
(empty trace). -/
theorem sendMessage_guard_noop (c : ChatState) (st : HistoryStore)
    (out : QueryOutcome) (t tResp : Nat)
    (h : trimString c.userInput = "" ∨ c.isLoading = true) :
    sendMessage c st out t tResp = (c, st, {}) := by
  unfold sendMessage submitPhase
  simp [h]

/-- Witness for C2 at a concrete whitespace-only input. -/
theorem sendMessage_guard_noop_witness :
    sendMessage { demoState with userInput := "   " } emptyStore .error 1 2 =
      ({ demoState with userInput := "   " }, emptyStore, {}) :=
  sendMessage_guard_noop _ _ _ _ _ (Or.inl (by decide))

/-- C1: when submit completes with a transport-level failure, the
controller ends with `isLoading = false` and the in-memory list extended
by exactly the user message and one locally synthesized assistant fallback
message, which carries the placeholder visualization payload. -/
theorem sendMessage_transport_fallback (c : ChatState) (st : HistoryStore) (t tResp : Nat)
    (hInput : ¬ trimString c.userInput = "") (hIdle : c.isLoading = false) :
    (sendMessage c st .error t tResp).1.isLoading = false ∧
    (sendMessage c st .error t tResp).1.messages =
      c.messages ++ [{ role := .user, content := c.userInput, timestamp := t },
                     fallbackMessage c.userInput tResp] ∧
    (fallbackMessage c.userInput tResp).role = .assistant ∧
    (fallbackMessage c.userInput tResp).visualizations = some fallbackVisualizations := by
  unfold sendMessage submitPhase responsePhase
  simp [hInput, hIdle, fallbackMessage]

/-- Witness for C1 at a concrete state. -/
theorem sendMessage_transport_fallback_witness :
    (sendMessage demoState emptyStore .error 1 2).1.isLoading = false ∧
    (sendMessage demoState emptyStore .error 1 2).1.messages =
      demoState.messages ++
        [{ role := .user, content := demoState.userInput, timestamp := 1 },
         fallbackMessage demoState.userInput 2] ∧
    (fallbackMessage demoState.userInput 2).role = .assistant ∧
    (fallbackMessage demoState.userInput 2).visualizations = some fallbackVisualizations :=
  sendMessage_transport_fallback demoState emptyStore 1 2 (by decide) rfl

/-- C3: during submit the user message is appended, and the history
service's rename is invoked with the first 30 characters of the query
exactly when that user message is the second message of the conversation
(the in-memory list counting the initial greeting); for any other count no
rename occurs. -/
theorem submitPhase_autoRename (c : ChatState) (st : HistoryStore) (t : Nat)
    (hInput : ¬ trimString c.userInput = "") (hIdle : c.isLoading = false) :
    (submitPhase c st t).1.messages =
      c.messages ++ [{ role := .user, content := c.userInput, timestamp := t }] ∧
    (submitPhase c st t).2.2.renamed =
      (if (submitPhase c st t).1.messages.length = 2
       then some (currentOrNewId c st, c.userInput.take 30)
       else none) := by
  unfold submitPhase currentOrNewId
  cases c.currentSession <;>
    simp [hInput, hIdle, HistoryStore.create] <;>
    by_cases hlen : c.messages.length = 1 <;> simp [hlen]

/-- Witness for C3: a first exchange (greeting plus fresh query). -/
theorem submitPhase_autoRename_witness :
    (submitPhase demoState emptyStore 1).1.messages =
      demoState.messages ++
        [{ role := .user, content := demoState.userInput, timestamp := 1 }] ∧
    (submitPhase demoState emptyStore 1).2.2.renamed =
      (if (submitPhase demoState emptyStore 1).1.messages.length = 2
       then some (currentOrNewId demoState emptyStore, demoState.userInput.take 30)
       else none) :=
  submitPhase_autoRename demoState emptyStore 1 (by decide) rfl

/-- C9: on either failure outcome (structurally valid response with
`success = false`, or a transport error) the store is exactly the store
the submit phase left — the assistant message pushed in memory is not
persisted. -/
theorem failure_not_persisted (c : ChatState) (st : HistoryStore)
    (out : QueryOutcome) (t tResp : Nat)
    (hfail : out = .error ∨ ∃ resp, out = .next false resp) :
    (sendMessage c st out t tResp).2.1 = (submitPhase c st t).2.1 := by
  rcases hfail with h | ⟨resp, h⟩ <;> subst h <;>
    · unfold sendMessage
      cases hq : (submitPhase c st t).2.2.querySent <;> simp [hq, responsePhase]

/-- Witness for C9 at a transport error. -/
theorem failure_not_persisted_witness :
    (sendMessage demoState demoStore .error 1 2).2.1 =
      (submitPhase demoState demoStore 1).2.1 :=
  failure_not_persisted demoState demoStore .error 1 2 (Or.inl rfl)

/-- C7: reading the session list yields `[]` when the blob is absent or
when parsing fails, and yields exactly the parsed content on a well-formed
blob; the read is a total function, so it never raises. -/
theorem refreshSessions_spec (parseJson : String → Except String (List ChatSession))
    (raw : Option String) :
    (raw = none → refreshSessions parseJson raw = []) ∧
    (∀ s e, raw = some s → parseJson s = .error e → refreshSessions parseJson raw = []) ∧
    (∀ s l, raw = some s → s ≠ "" → parseJson s = .ok l → refreshSessions parseJson raw = l) := by
  refine ⟨fun h => by subst h; rfl, fun s e hr hp => ?_, fun s l hr hs hp => ?_⟩
  · subst hr
    by_cases hs : s = "" <;> simp [refreshSessions, hs, hp]
  · subst hr
    simp [refreshSessions, hs, hp]

/-- Witness for C7 at a well-formed blob. -/
theorem refreshSessions_spec_witness :
    refreshSessions demoParse (some "[]") = [] :=
  (refreshSessions_spec demoParse (some "[]")).2.2 "[]" [] rfl (by decide) rfl

/-- Helper: appendMessage never changes which session ids exist. -/
theorem sessions_id_appendMessage (st : HistoryStore) (sid : String)
    (m : ChatMessageRecord) (t : Nat) :
    (st.appendMessage sid m t).sessions.map ChatSession.id =
      st.sessions.map ChatSession.id := by
  unfold HistoryStore.appendMessage
  simp only [List.map_map]
  apply List.map_congr_left
  intro s _
  by_cases h : s.id = sid <;> simp [h]

/-- Helper: rename never changes which session ids exist. -/
theorem sessions_id_rename (st : HistoryStore) (sid ttl : String) (t : Nat) :
    (st.rename sid ttl t).sessions.map ChatSession.id =
      st.sessions.map ChatSession.id := by
  unfold HistoryStore.rename
  simp only [List.map_map]
  apply List.map_congr_left
  intro s _
  by_cases h : s.id = sid <;> simp [h]

/-- Helper: after appendMessage, loading the target session shows exactly
the appended message at the end. -/
theorem load_messages_appendMessage (st : HistoryStore) (sid : String)
    (m : ChatMessageRecord) (t : Nat) :
    ((st.appendMessage sid m t).load sid).map ChatSession.messages =
      (st.load sid).map (fun s => s.messages ++ [m]) := by
  unfold HistoryStore.appendMessage HistoryStore.load
  rw [List.find?_map]
  have hpred : ((fun s : ChatSession => s.id == sid) ∘ fun s =>
      if s.id = sid then { s with messages := s.messages ++ [m], updatedAt := t } else s) =
        (fun s : ChatSession => s.id == sid) := by
    funext s
    by_cases h : s.id = sid <;> simp [h]
  rw [hpred]
  cases hf : st.sessions.find? (fun s => s.id == sid) with
  | none => simp
  | some s =>
      have := List.find?_some hf
      have hid : s.id = sid := by simpa using this
      simp [hid]

/-- Helper: rename leaves every session's message list alone. -/
theorem load_messages_rename (st : HistoryStore) (sid sid' ttl : String) (t : Nat) :
    ((st.rename sid ttl t).load sid').map ChatSession.messages =
      (st.load sid').map ChatSession.messages := by
  unfold HistoryStore.rename HistoryStore.load
  rw [List.find?_map]
  have hpred : ((fun s : ChatSession => s.id == sid') ∘ fun s =>
      if s.id = sid then
        { s with title := if trimString ttl = "" then s.title else trimString ttl
               , updatedAt := t }
      else s) = (fun s : ChatSession => s.id == sid') := by
    funext s
    by_cases h : s.id = sid <;> simp [h]
  rw [hpred]
  cases hf : st.sessions.find? (fun s => s.id == sid') with
  | none => simp
  | some s =>
      by_cases h : s.id = sid <;> simp [h]

/-- C10: clearChat resets the in-memory list to the single greeting and
leaves the current-session pointer alone; a subsequent submit therefore
targets that same persisted session — no session is created (the id set is
unchanged) and the user message lands in the existing session. -/
theorem clearChat_same_session (c : ChatState) (st : HistoryStore)
    (t0 t : Nat) (q : String) (sess : ChatSession)
    (hcur : c.currentSession = some sess)
    (hq : ¬ trimString q = "") :
    (clearChat c t0).currentSession = c.currentSession ∧
    (clearChat c t0).messages =
      [{ role := .assistant
       , content := "Chat cleared. How can I help you with mining operations today?"
       , timestamp := t0 }] ∧
    (submitPhase { clearChat c t0 with userInput := q, isLoading := false } st t).1.currentSession = some sess ∧
    (submitPhase { clearChat c t0 with userInput := q, isLoading := false } st t).2.1.sessions.map ChatSession.id =
      st.sessions.map ChatSession.id ∧
    ((submitPhase { clearChat c t0 with userInput := q, isLoading := false } st t).2.1.load sess.id).map ChatSession.messages =
      (st.load sess.id).map (fun s => s.messages ++
        [{ role := .user, content := q, timestamp := toString t }]) := by
  refine ⟨by simp [clearChat], by simp [clearChat], ?_, ?_, ?_⟩ <;>
    · unfold submitPhase
      simp [clearChat, hcur, hq, sessions_id_rename, sessions_id_appendMessage,
        load_messages_rename, load_messages_appendMessage]

/-- Witness for C10 on a one-session store. -/
theorem clearChat_same_session_witness :
    (clearChat { demoState with currentSession := some demoSession } 5).currentSession =
      ({ demoState with currentSession := some demoSession } : ChatState).currentSession ∧
    (clearChat { demoState with currentSession := some demoSession } 5).messages =
      [{ role := .assistant
       , content := "Chat cleared. How can I help you with mining operations today?"
       , timestamp := 5 }] ∧
    (submitPhase { clearChat { demoState with currentSession := some demoSession } 5 with
        userInput := "next question", isLoading := false } demoStore 6).1.currentSession = some demoSession ∧
    (submitPhase { clearChat { demoState with currentSession := some demoSession } 5 with
        userInput := "next question", isLoading := false } demoStore 6).2.1.sessions.map ChatSession.id =
      demoStore.sessions.map ChatSession.id ∧
    ((submitPhase { clearChat { demoState with currentSession := some demoSession } 5 with
        userInput := "next question", isLoading := false } demoStore 6).2.1.load demoSession.id).map ChatSession.messages =
      (demoStore.load demoSession.id).map (fun s => s.messages ++
        [{ role := .user, content := "next question", timestamp := toString 6 }]) :=
  clearChat_same_session { demoState with currentSession := some demoSession } demoStore
    5 6 "next question" demoSession rfl (by decide)

/-- Helper: the pie label chain `status || type || name || label || Unknown`
is first-truthy selection over those keys. -/
theorem pieLabel_firstTruthy (d : Record) :
    pieLabel d = (firstTruthy d ["status", "type", "name", "label"]).getD (.s "Unknown") := by
  unfold pieLabel
  by_cases h1 : (getField d "status").truthy <;>
    by_cases h2 : (getField d "type").truthy <;>
    by_cases h3 : (getField d "name").truthy <;>
    by_cases h4 : (getField d "label").truthy <;>
    simp [firstTruthy, jsOr, h1, h2, h3, h4]

/-- Helper: the pie value chain `count || value || percentage || 0` is
first-truthy selection over those keys. -/
theorem pieValue_firstTruthy (d : Record) :
    pieValue d = (firstTruthy d ["count", "value", "percentage"]).getD (.n 0) := by
  unfold pieValue
  by_cases h1 : (getField d "count").truthy <;>
    by_cases h2 : (getField d "value").truthy <;>
    by_cases h3 : (getField d "percentage").truthy <;>
    simp [firstTruthy, jsOr, h1, h2, h3]

/-- Helper: the series label chain `month || date || period || empty` is
first-truthy selection over those keys. -/
theorem seriesLabelOf_firstTruthy (d : Record) :
    seriesLabelOf d = (firstTruthy d ["month", "date", "period"]).getD (.s "") := by
  unfold seriesLabelOf
  by_cases h1 : (getField d "month").truthy <;>
    by_cases h2 : (getField d "date").truthy <;>
    by_cases h3 : (getField d "period").truthy <;>
    simp [firstTruthy, jsOr, h1, h2, h3]

/-- Helper: `d[k] || v` is first-truthy selection over the single key. -/
theorem jsOr_default_firstTruthy (d : Record) (k : String) (v : JSVal) :
    jsOr (getField d k) v = (firstTruthy d [k]).getD v := by
  by_cases h : (getField d k).truthy <;> simp [firstTruthy, jsOr, h]

/-- C4 (amended): for pie/doughnut there is exactly one series; the i-th
label is the first TRUTHY of status, type, name, label on record i
(defaulting to Unknown when none is truthy) and the i-th value the first
truthy of count, value, percentage (defaulting to 0); the claim's concrete
example renders labels Operational/Critical with series [45, 2]. -/
theorem chartData_pie_spec (ty : ChartType) (data : List Record)
    (hty : ty = .pie ∨ ty = .doughnut) :
    (chartData ty data).1 =
      data.map (fun d => (firstTruthy d ["status", "type", "name", "label"]).getD (.s "Unknown")) ∧
    (chartData ty data).2.map Dataset.data =
      [data.map (fun d => (firstTruthy d ["count", "value", "percentage"]).getD (.n 0))] ∧
    (chartData ty data).2.length = 1 ∧
    (chartData .pie
      [ [("status", .s "Operational"), ("count", .n 45)]
      , [("status", .s "Critical"), ("count", .n 2)] ]).1 =
        [.s "Operational", .s "Critical"] ∧
    (chartData .pie
      [ [("status", .s "Operational"), ("count", .n 45)]
      , [("status", .s "Critical"), ("count", .n 2)] ]).2.map Dataset.data = [[.n 45, .n 2]] := by
  refine ⟨?_, ?_, ?_, by decide, by decide⟩ <;>
    · unfold chartData
      rcases hty with h | h <;> subst h <;>
        simp [pieLabel_firstTruthy, pieValue_firstTruthy]

/-- Witness for C4 at a concrete record list. -/
theorem chartData_pie_spec_witness :
    (chartData .pie
      [ [("count", .n 45), ("status", .s "Operational")] ]).1 =
      [[(("count" : String), JSVal.n 45), ("status", JSVal.s "Operational")]].map
        (fun d => (firstTruthy d ["status", "type", "name", "label"]).getD (.s "Unknown")) ∧
    (chartData .pie [ [("count", .n 45), ("status", .s "Operational")] ]).2.map Dataset.data =
      [[[(("count" : String), JSVal.n 45), ("status", JSVal.s "Operational")]].map
        (fun d => (firstTruthy d ["count", "value", "percentage"]).getD (.n 0))] ∧
    (chartData .pie [ [("count", .n 45), ("status", .s "Operational")] ]).2.length = 1 ∧
    (chartData .pie
      [ [("status", .s "Operational"), ("count", .n 45)]
      , [("status", .s "Critical"), ("count", .n 2)] ]).1 =
        [.s "Operational", .s "Critical"] ∧
    (chartData .pie
      [ [("status", .s "Operational"), ("count", .n 45)]
      , [("status", .s "Critical"), ("count", .n 2)] ]).2.map Dataset.data = [[.n 45, .n 2]] :=
  chartData_pie_spec .pie [ [("count", .n 45), ("status", .s "Operational")] ] (Or.inl rfl)

/-- C4 counterexample: on the record with `count` present but 0 and
`value` 7, the code renders 7, while the claim's first-PRESENT rule
prescribes 0. -/
theorem pie_first_present_refuted :
    pieValue [("count", .n 0), ("value", .n 7)] = .n 7 ∧
    (chartData .pie [[("count", .n 0), ("value", .n 7)]]).2.map Dataset.data = [[.n 7]] ∧
    firstPresent [("count", .n 0), ("value", .n 7)] ["count", "value", "percentage"] =
      some (.n 0) ∧
    (JSVal.n 7) ≠ (JSVal.n 0) := by decide

/-- Helper: mapping a function of the element over an enumerated list
ignores the indices. -/
theorem map_enumFrom_snd {α β : Type} (n : Nat) (l : List α) (g : α → β) :
    (l.enumFrom n).map (fun p => g p.2) = l.map g := by
  induction l generalizing n with
  | nil => rfl
  | cons x xs ih => simp [List.enumFrom, ih]

/-- Helper: `enum` specialisation of `map_enumFrom_snd`. -/
theorem map_enum_snd {α β : Type} (l : List α) (g : α → β) :
    l.enum.map (fun p => g p.2) = l.map g := map_enumFrom_snd 0 l g

/-- C5 (amended): for line/bar the labels are the deduplicated,
order-preserving per-record first-TRUTHY values among month, date, period
(empty string when none is truthy) with falsy values filtered out; one
series per key of the first record other than month, date, period, label,
named via formatLabel, each value taken positionally and defaulting to 0
when the field is absent or falsy; the claim's concrete example yields
labels Jan/Feb and one series Production = [12000, 13500]. -/
theorem chartData_series_spec (ty : ChartType) (data : List Record)
    (hty : ty = .line ∨ ty = .bar) (_hne : data ≠ []) :
    (chartData ty data).1 =
      (dedupFirst (data.map (fun d =>
        (firstTruthy d ["month", "date", "period"]).getD (.s "")))).filter JSVal.truthy ∧
    (chartData ty data).2.map Dataset.label =
      (seriesKeys data).map (fun k => some (formatLabel k)) ∧
    (chartData ty data).2.map Dataset.data =
      (seriesKeys data).map (fun k => data.map (fun d => (firstTruthy d [k]).getD (.n 0))) ∧
    (chartData .line
      [ [("month", .s "Jan"), ("production", .n 12000)]
      , [("month", .s "Feb"), ("production", .n 13500)] ]).1 = [.s "Jan", .s "Feb"] ∧
    (chartData .line
      [ [("month", .s "Jan"), ("production", .n 12000)]
      , [("month", .s "Feb"), ("production", .n 13500)] ]).2.map
        (fun ds => (ds.label, ds.data)) = [(some "Production", [.n 12000, .n 13500])] := by
  have hlab : seriesLabelOf = fun d =>
      (firstTruthy d ["month", "date", "period"]).getD (.s "") :=
    funext seriesLabelOf_firstTruthy
  refine ⟨?_, ?_, ?_, by decide, by decide⟩
  · unfold chartData
    rcases hty with h | h <;> subst h <;> simp [hlab]
  · unfold chartData
    rcases hty with h | h <;> subst h <;>
      simp [Function.comp_def] <;>
      exact map_enum_snd (seriesKeys data) (fun k => some (formatLabel k))
  · unfold chartData
    rcases hty with h | h <;> subst h <;>
      simp [jsOr_default_firstTruthy, Function.comp_def] <;>
      exact map_enum_snd (seriesKeys data)
        (fun k => data.map (fun d => (firstTruthy d [k]).getD (.n 0)))

/-- Witness for C5 at the claim's concrete example. -/
theorem chartData_series_spec_witness :
    (chartData .line
      [ [("month", .s "Jan"), ("production", .n 12000)]
      , [("month", .s "Feb"), ("production", .n 13500)] ]).1 =
      (dedupFirst ([ [(("month" : String), JSVal.s "Jan"), ("production", JSVal.n 12000)]
                   , [("month", JSVal.s "Feb"), ("production", JSVal.n 13500)] ].map (fun d =>
        (firstTruthy d ["month", "date", "period"]).getD (.s "")))).filter JSVal.truthy ∧
    (chartData .line
      [ [("month", .s "Jan"), ("production", .n 12000)]
      , [("month", .s "Feb"), ("production", .n 13500)] ]).2.map Dataset.label =
      (seriesKeys [ [("month", .s "Jan"), ("production", .n 12000)]
                  , [("month", .s "Feb"), ("production", .n 13500)] ]).map
        (fun k => some (formatLabel k)) ∧
    (chartData .line
      [ [("month", .s "Jan"), ("production", .n 12000)]
      , [("month", .s "Feb"), ("production", .n 13500)] ]).2.map Dataset.data =
      (seriesKeys [ [("month", .s "Jan"), ("production", .n 12000)]
                  , [("month", .s "Feb"), ("production", .n 13500)] ]).map
        (fun k => [ [(("month" : String), JSVal.s "Jan"), ("production", JSVal.n 12000)]
                  , [("month", JSVal.s "Feb"), ("production", JSVal.n 13500)] ].map
          (fun d => (firstTruthy d [k]).getD (.n 0))) ∧
    (chartData .line
      [ [("month", .s "Jan"), ("production", .n 12000)]
      , [("month", .s "Feb"), ("production", .n 13500)] ]).1 = [.s "Jan", .s "Feb"] ∧
    (chartData .line
      [ [("month", .s "Jan"), ("production", .n 12000)]
      , [("month", .s "Feb"), ("production", .n 13500)] ]).2.map
        (fun ds => (ds.label, ds.data)) = [(some "Production", [.n 12000, .n 13500])] :=
  chartData_series_spec .line
    [ [("month", .s "Jan"), ("production", .n 12000)]
    , [("month", .s "Feb"), ("production", .n 13500)] ] (Or.inl rfl) (by decide)

/-- C5 counterexample: a record whose `month` is present but empty falls
through to `date` in the code, so the label list is [Jan]; the claim's
first-PRESENT rule picks the empty string, which its falsy filter then
drops, prescribing an empty label list. -/
theorem series_first_present_refuted :
    (chartData .line [[("month", .s ""), ("date", .s "Jan"), ("production", .n 5)]]).1 =
      [.s "Jan"] ∧
    firstPresent [("month", .s ""), ("date", .s "Jan"), ("production", .n 5)]
      ["month", "date", "period"] = some (.s "") ∧
    JSVal.truthy (.s "") = false := by decide

/-- C8: color assignment is deterministic in the count: generateColors
returns exactly n colors, the first min(n,8) in order from the fixed
8-color palette and, beyond 8, hue-rotated colors at (i * 137.508) mod 360
degrees; getColor always returns entry i mod 6 of the fixed 6-color
palette. -/
theorem color_assignment_spec (n j : Nat) (alpha : Rat) :
    (generateColors n alpha).length = n ∧
    (∀ i, i < min n 8 → (generateColors n alpha)[i]? = (palette8 alpha)[i]?) ∧
    (∀ i, 8 ≤ i → i < n →
      (generateColors n alpha)[i]? =
        some (.hsla (ratMod ((i : Rat) * goldenAngle) 360) 70 65 alpha)) ∧
    (palette6 alpha)[j % 6]? = some (getColor j alpha) := by
  have hlen8 : (palette8 alpha).length = 8 := by simp [palette8]
  refine ⟨?_, ?_, ?_, ?_⟩
  · unfold generateColors
    by_cases h : n > (palette8 alpha).length
    · rw [hlen8] at h
      simp only [hlen8, h, if_pos, List.length_take, List.length_append,
        List.length_map, List.length_drop, List.length_range]
      omega
    · rw [hlen8] at h
      simp only [hlen8, h, if_neg, if_false, List.length_take]
      omega
  · intro i hi
    rw [Nat.lt_min] at hi
    unfold generateColors
    by_cases h : n > (palette8 alpha).length
    · simp only [h, if_pos]
      rw [List.getElem?_take, if_pos hi.1, List.getElem?_append,
        if_pos (by rw [hlen8]; exact hi.2)]
    · simp only [h, if_false]
      rw [List.getElem?_take, if_pos hi.1]
  · intro i h8 hn
    have h : n > (palette8 alpha).length := by rw [hlen8]; omega
    have hi' : 8 + (i - 8) = i := by omega
    unfold generateColors
    simp only [h, if_pos]
    rw [List.getElem?_take, if_pos hn,
      List.getElem?_append_right (by rw [hlen8]; omega),
      List.getElem?_map, hlen8, List.getElem?_drop, hi', List.getElem?_range hn]
    rfl
  · have h6 : j % 6 < 6 := Nat.mod_lt _ (by norm_num)
    have hlen : (palette6 alpha).length = 6 := by simp [palette6]
    unfold getColor
    rw [hlen]
    revert h6
    generalize j % 6 = m
    intro h6
    interval_cases m <;> rfl

/-- Witness for C8 at n = 10, i = 9, j = 7. -/
theorem color_assignment_spec_witness :
    (generateColors 10 1).length = 10 ∧
    (generateColors 10 1)[2]? = (palette8 1)[2]? ∧
    (generateColors 10 1)[9]? = some (.hsla (ratMod ((9 : Rat) * goldenAngle) 360) 70 65 1) ∧
    (palette6 1)[7 % 6]? = some (getColor 7 1) :=
  ⟨(color_assignment_spec 10 7 1).1,
   (color_assignment_spec 10 7 1).2.1 2 (by decide),
   (color_assignment_spec 10 7 1).2.2.1 9 (by decide) (by decide),
   (color_assignment_spec 10 7 1).2.2.2⟩

/-- Helper: a list of length at most one has equal members. -/
theorem mem_eq_of_length_le_one {α : Type} {l : List α} (h : l.length ≤ 1)
    {a b : α} (ha : a ∈ l) (hb : b ∈ l) : a = b := by
  match l with
  | [] => cases ha
  | [x] =>
      simp only [List.mem_singleton] at ha hb
      rw [ha, hb]
  | x :: y :: rest => simp at h

/-- Helper: destroying a chart never raises any canvas's live count. -/
theorem liveOn_destroy_le (g : ChartRegistry) (u : Nat) (x : String) :
    liveOn (destroyChart g u) x ≤ liveOn g x := by
  unfold liveOn destroyChart
  exact List.Sublist.length_le ((List.filter_sublist _).filter _)

/-- Helper: destroying the component-tracked chart never raises a count. -/
theorem liveOn_destroyTracked_le (inst : Option Nat) (g : ChartRegistry) (x : String) :
    liveOn (destroyTracked inst g) x ≤ liveOn g x := by
  cases inst with
  | none => exact Nat.le_refl _
  | some u => exact liveOn_destroy_le g u x

/-- Helper: the registry-lookup destroy never raises a count. -/
theorem liveOn_destroyRegistered_le (g : ChartRegistry) (canvas x : String) :
    liveOn (destroyRegistered g canvas) x ≤ liveOn g x := by
  unfold destroyRegistered
  cases registryLookup g canvas with
  | none => exact Nat.le_refl _
  | some u => exact liveOn_destroy_le g u x

/-- Helper: when a canvas holds at most one live chart, the
lookup-and-destroy step leaves it with none. -/
theorem liveOn_destroyRegistered_self (g : ChartRegistry) (canvas : String)
    (h : liveOn g canvas ≤ 1) :
    liveOn (destroyRegistered g canvas) canvas = 0 := by
  unfold destroyRegistered
  cases hf : registryLookup g canvas with
  | none =>
      unfold registryLookup at hf
      have hfind := Option.map_eq_none'.mp hf
      have hnone := List.find?_eq_none.mp hfind
      unfold liveOn
      rw [List.length_eq_zero, List.filter_eq_nil_iff]
      exact hnone
  | some u =>
      unfold registryLookup at hf
      obtain ⟨p, hfind, hpu⟩ := Option.map_eq_some'.mp hf
      have hmem : p ∈ g.charts := List.mem_of_find?_eq_some hfind
      have hp := List.find?_some hfind
      unfold liveOn destroyChart
      rw [List.length_eq_zero, List.filter_eq_nil_iff]
      intro q hq
      rw [List.mem_filter] at hq
      intro hqc
      have hqmem : q ∈ g.charts.filter (fun r => r.2 == canvas) :=
        List.mem_filter.mpr ⟨hq.1, hqc⟩
      have hpmem : p ∈ g.charts.filter (fun r => r.2 == canvas) :=
        List.mem_filter.mpr ⟨hmem, hp⟩
      have hqp : q = p := mem_eq_of_length_le_one h hqmem hpmem
      have hne := hq.2
      rw [hqp, hpu] at hne
      simp at hne

/-- Helper: one renderChart call preserves the at-most-one-per-canvas
registry invariant: both destroy steps only remove charts, the target
canvas is empty before the new chart binds, and exactly one chart is
added. -/
theorem renderChart_preserves_RegOk (c : ChartsComponentState) (g : ChartRegistry)
    (dom : List String) (h : RegOk g) : RegOk (renderChart c g dom).2 := by
  unfold renderChart
  set cv := (if c.chartId = "" then c.title else c.chartId) ++ "_chart" with hcv
  by_cases hdom : cv ∈ dom
  · simp only [hdom, if_pos]
    intro x
    unfold liveOn
    rw [List.filter_append, List.length_append]
    set g2 := destroyRegistered (destroyTracked c.chartInstance g) cv with hg2
    by_cases hx : cv = x
    · subst hx
      have h0 : liveOn g2 cv = 0 :=
        liveOn_destroyRegistered_self _ _
          (Nat.le_trans (liveOn_destroyTracked_le _ _ _) (h _))
      unfold liveOn at h0
      rw [h0]
      simp
    · have hle : liveOn g2 x ≤ 1 :=
        Nat.le_trans (liveOn_destroyRegistered_le _ _ _)
          (Nat.le_trans (liveOn_destroyTracked_le _ _ _) (h _))
      unfold liveOn at hle
      have hsingle : List.filter (fun p => p.2 == x) [(g2.nextUid, cv)] = [] := by
        rw [List.filter_eq_nil_iff]
        intro q hq
        simp only [List.mem_singleton] at hq
        subst hq
        simpa using hx
      rw [hsingle]
      simpa using hle
  · simp only [hdom, if_neg]
    exact h

/-- C6: for every sequence of render calls (any prefix of any DOM
history), every canvas carries at most one live chart, provided the
registry started that way (in particular from the empty registry). -/
theorem live_charts_at_most_one (doms : List (List String))
    (c : ChartsComponentState) (g : ChartRegistry) (h : RegOk g)
    (canvas : String) (k : Nat) :
    liveOn (runRenders c g (doms.take k)).2 canvas ≤ 1 := by
  induction doms generalizing c g k with
  | nil =>
      rw [List.take_nil]
      exact h canvas
  | cons d rest ih =>
      cases k with
      | zero => exact h canvas
      | succ k =>
          rw [List.take_succ_cons]
          unfold runRenders
          exact ih (renderChart c g d).1 (renderChart c g d).2
            (renderChart_preserves_RegOk c g d h) k

/-- Witness for C6: two renders on the same surface from the empty
registry. -/
theorem live_charts_at_most_one_witness :
    liveOn (runRenders { chartId := "a" } { charts := [], nextUid := 0 }
      ([["a_chart"], ["a_chart"]].take 2)).2 "a_chart" ≤ 1 :=
  live_charts_at_most_one [["a_chart"], ["a_chart"]] { chartId := "a" }
    { charts := [], nextUid := 0 } (fun canvas => by simp [liveOn]) "a_chart" 2
